import Mathlib

/-!
Verification of the ChronoMind service worker (src/sw.js), background timer
logic: the timer state machine (startTimer / stopTimer / resetTimer / tick),
the time formatter, and the message dispatch.  Time is modelled as an integer
millisecond count (the monotonic clock reading performance.now()).  Broadcasts
to clients are modelled as a list of emitted messages.
-/

namespace ChronoMind

/-- Timer mode.  The source stores the mode as a string: the string
"stopwatch" is the stopwatch mode, and the string "timer" (called
"countdown" in the design documents) is the countdown mode. -/
inductive Mode where
  | stopwatch
  | timer
deriving DecidableEq, Repr

/-- The authoritative timer state (sw.js lines 57-65).  sessionStartTime is
nullable, hence Option. -/
structure TimerState where
  isRunning : Bool
  mode : Mode
  startTime : Int
  elapsedTime : Int
  timerDuration : Int
  displayTime : Int
  sessionStartTime : Option Int
deriving DecidableEq, Repr

/-- The default idle/stopwatch state (sw.js lines 57-65 and 157-165). -/
def initTimerState : TimerState :=
  { isRunning := false
    mode := Mode.stopwatch
    startTime := 0
    elapsedTime := 0
    timerDuration := 0
    displayTime := 0
    sessionStartTime := none }

/-- The whole mutable store of the worker: the timer state plus whether a
tick-interval handle is armed (timerInterval, sw.js line 55; true models a
non-null handle). -/
structure SW where
  timerInterval : Bool
  state : TimerState
deriving DecidableEq, Repr

/-- The worker at context initialisation. -/
def initSW : SW := { timerInterval := false, state := initTimerState }

/-- Messages posted to clients (the postMessage payloads of sw.js). -/
inductive Msg where
  | tick (s : TimerState)
  | stopped (s : TimerState) (isFinished : Bool)
  | reset (s : TimerState)
  | stateReply (s : TimerState)
deriving DecidableEq, Repr

/-- A start payload: an arbitrary object spread over the state
(sw.js line 121), so every state field may be overridden; a field that the
caller leaves out is none. -/
structure StartPayload where
  isRunning : Option Bool := none
  mode : Option Mode := none
  startTime : Option Int := none
  elapsedTime : Option Int := none
  timerDuration : Option Int := none
  displayTime : Option Int := none
  sessionStartTime : Option (Option Int) := none
deriving DecidableEq, Repr

/-- The object spread { ...state, ...initialState } of sw.js line 121. -/
def mergePayload (s : TimerState) (p : StartPayload) : TimerState :=
  { isRunning := p.isRunning.getD s.isRunning
    mode := p.mode.getD s.mode
    startTime := p.startTime.getD s.startTime
    elapsedTime := p.elapsedTime.getD s.elapsedTime
    timerDuration := p.timerDuration.getD s.timerDuration
    displayTime := p.displayTime.getD s.displayTime
    sessionStartTime := p.sessionStartTime.getD s.sessionStartTime }

/-- JavaScript String.padStart: pads on the left with c up to length n. -/
def padStart (s : String) (n : Nat) (c : Char) : String :=
  String.mk (List.replicate (n - s.length) c) ++ s

/-- formatTimeForNotification (sw.js lines 67-74): clamp negatives to zero,
split into hours / minutes / seconds, zero-pad each to two digits. -/
def formatTimeForNotification (ms : Int) : String :=
  let ms : Int := if ms < 0 then 0 else ms
  let totalSeconds : Nat := ms.toNat / 1000
  let hours := padStart (toString (totalSeconds / 3600)) 2 '0'
  let minutes := padStart (toString (totalSeconds % 3600 / 60)) 2 '0'
  let seconds := padStart (toString (totalSeconds % 60)) 2 '0'
  hours ++ ":" ++ minutes ++ ":" ++ seconds

/-- stopTimer (sw.js lines 127-152): no-op when idle; otherwise clears
isRunning, recomputes elapsedTime from the clock when startTime > 0, clears
the interval handle, and broadcasts a stopped message carrying the final
state and the isFinished flag. -/
def stopTimer (isFinished : Bool) (now : Int) (sw : SW) : SW × List Msg :=
  if sw.state.isRunning = false then (sw, [])
  else
    let s1 := { sw.state with isRunning := false }
    let s2 := if s1.startTime > 0 then { s1 with elapsedTime := now - s1.startTime } else s1
    ({ timerInterval := false, state := s2 }, [Msg.stopped s2 isFinished])

/-- The state recomputation of tick (sw.js lines 100-103): elapsedTime from
the clock, displayTime by mode, displayTime floored at zero. -/
def tickState (now : Int) (s : TimerState) : TimerState :=
  let e := now - s.startTime
  let d0 : Int := match s.mode with
    | Mode.stopwatch => e
    | Mode.timer => s.timerDuration - e
  let d : Int := if d0 < 0 then 0 else d0
  { s with elapsedTime := e, displayTime := d }

/-- tick (sw.js lines 99-116): recompute the state, broadcast a tick
message, and in timer (countdown) mode auto-stop with isFinished once
displayTime has reached zero. -/
def tick (now : Int) (sw : SW) : SW × List Msg :=
  let s1 := tickState now sw.state
  let sw1 : SW := { sw with state := s1 }
  if s1.mode = Mode.timer ∧ s1.displayTime ≤ 0 then
    let r := stopTimer true now sw1
    (r.1, Msg.tick s1 :: r.2)
  else (sw1, [Msg.tick s1])

/-- startTimer (sw.js lines 118-125): no-op when already running; otherwise
spreads the payload over the state, forces isRunning, anchors
startTime = now - elapsedTime, and arms the tick interval.  Nothing is
broadcast. -/
def startTimer (p : StartPayload) (now : Int) (sw : SW) : SW × List Msg :=
  if sw.state.isRunning = true then (sw, [])
  else
    let s1 := { mergePayload sw.state p with isRunning := true }
    let s2 := { s1 with startTime := now - s1.elapsedTime }
    ({ timerInterval := true, state := s2 }, [])

/-- resetTimer (sw.js lines 154-172): stop (no-op when idle), replace the
state wholesale with the default, broadcast a reset message. -/
def resetTimer (now : Int) (sw : SW) : SW × List Msg :=
  let r := stopTimer false now sw
  let sw2 : SW := { timerInterval := r.1.timerInterval, state := initTimerState }
  (sw2, r.2 ++ [Msg.reset initTimerState])

/-- Commands of the message envelope (sw.js lines 176-194). -/
inductive Command where
  | start (data : StartPayload)
  | stop
  | reset
  | getState
deriving DecidableEq, Repr

/-- The message event listener (sw.js lines 176-194): dispatch on the
command; getState replies to the sender with the current state. -/
def handleMessage (c : Command) (now : Int) (sw : SW) : SW × List Msg :=
  match c with
  | Command.start data => startTimer data now sw
  | Command.stop => stopTimer false now sw
  | Command.reset => resetTimer now sw
  | Command.getState => (sw, [Msg.stateReply sw.state])

/-- Counts the stopped broadcasts with the given isFinished flag. -/
def countStopped (f : Bool) (ms : List Msg) : Nat :=
  (ms.filter (fun m => match m with
    | Msg.stopped _ fin => fin = f
    | _ => false)).length

/-- The countdown scenario: start with mode timer (countdown),
timerDuration 2000, elapsedTime 0, at clock reading t0, then two ticks at
the 1-second period.  Returns the final store and all emitted messages. -/
def countdownRun (t0 : Int) : SW × List Msg :=
  let r0 := startTimer { mode := some Mode.timer, timerDuration := some 2000, elapsedTime := some 0 } t0 initSW
  let r1 := tick (t0 + 1000) r0.1
  let r2 := tick (t0 + 2000) r1.1
  (r2.1, r0.2 ++ r1.2 ++ r2.2)

/-- Stores reachable from the initial worker by any sequence of commands
and tick firings, at arbitrary clock readings and with arbitrary start
payloads. -/
inductive Reachable : SW → Prop where
  | init : Reachable initSW
  | doStart (p : StartPayload) (now : Int) {sw : SW} :
      Reachable sw → Reachable (startTimer p now sw).1
  | doStop (f : Bool) (now : Int) {sw : SW} :
      Reachable sw → Reachable (stopTimer f now sw).1
  | doReset (now : Int) {sw : SW} :
      Reachable sw → Reachable (resetTimer now sw).1
  | doTick (now : Int) {sw : SW} :
      Reachable sw → Reachable (tick now sw).1

/-- A start payload confined to the documented shape of the inbound start
command: only mode, timerDuration, elapsedTime and sessionStartTime (the
object spread in startTimer would let a caller override any state field,
displayTime included). -/
def StartPayload.documented (p : StartPayload) : Prop :=
  p.isRunning = none ∧ p.startTime = none ∧ p.displayTime = none

instance (p : StartPayload) : Decidable p.documented := by
  unfold StartPayload.documented
  infer_instance

/-- Stores reachable from the initial worker when start payloads carry only
the documented fields. -/
inductive ReachableDoc : SW → Prop where
  | init : ReachableDoc initSW
  | doStart (p : StartPayload) (now : Int) {sw : SW} (hp : p.documented) :
      ReachableDoc sw → ReachableDoc (startTimer p now sw).1
  | doStop (f : Bool) (now : Int) {sw : SW} :
      ReachableDoc sw → ReachableDoc (stopTimer f now sw).1
  | doReset (now : Int) {sw : SW} :
      ReachableDoc sw → ReachableDoc (resetTimer now sw).1
  | doTick (now : Int) {sw : SW} :
      ReachableDoc sw → ReachableDoc (tick now sw).1

/-- A running state whose startTime still has its zero default. -/
def swDegenerate : SW :=
  { timerInterval := true
    state := { isRunning := true, mode := Mode.stopwatch, startTime := 0,
               elapsedTime := 7, timerDuration := 0, displayTime := 7,
               sessionStartTime := none } }

/-- A running countdown state part-way through, used as a stop input. -/
def swMidRun : SW :=
  { timerInterval := true
    state := { isRunning := true, mode := Mode.timer, startTime := 3,
               elapsedTime := 500, timerDuration := 2000, displayTime := 1500,
               sessionStartTime := some 99 } }

/-- C7: formatTimeForNotification clamps negative input to zero (formatting
any ms exactly as its clamp to zero), and on the concrete inputs of the
spec it splits into zero-padded hours, minutes and seconds with no upper
bound on the hours field: 3723000 ms renders as 01:02:03, -5 ms as
00:00:00, and 360000000 ms (100 hours) as 100:00:00. -/
theorem format_spec :
    (∀ ms : Int, formatTimeForNotification ms = formatTimeForNotification (max ms 0))
    ∧ formatTimeForNotification 3723000 = "01:02:03"
    ∧ formatTimeForNotification (-5) = "00:00:00"
    ∧ formatTimeForNotification 360000000 = "100:00:00" := by
  refine ⟨fun ms => ?_, rfl, rfl, rfl⟩
  rcases lt_or_le ms 0 with h | h
  · simp [formatTimeForNotification, if_pos h, max_eq_right h.le]
  · simp [formatTimeForNotification, if_neg (not_lt.2 h), max_eq_left h]

/-- After any startTimer call the state is running: either the guard hit
(the state was already running) or the merge forced isRunning. -/
theorem start_isRunning (p : StartPayload) (t : Int) (sw : SW) :
    (startTimer p t sw).1.state.isRunning = true := by
  unfold startTimer
  split
  · simpa using by assumption
  · rfl

/-- C4: start is idempotent.  For any two payloads p1 and p2 and any
store, start(p2) right after start(p1) returns the store of start(p1)
unchanged and emits nothing: the second start is a no-op and no field of
p2 is merged. -/
theorem start_idempotent (sw : SW) (p1 p2 : StartPayload) (t1 t2 : Int) :
    startTimer p2 t2 (startTimer p1 t1 sw).1 = ((startTimer p1 t1 sw).1, []) := by
  have h := start_isRunning p1 t1 sw
  set X := (startTimer p1 t1 sw).1 with hX
  simp [startTimer, h]

/-- C8: stopping a running timer whose startTime never advanced past its
zero default skips the elapsed-time recomputation: elapsedTime is kept,
while isRunning still becomes false and the tick interval is cancelled. -/
theorem stop_degenerate (f : Bool) (now : Int) (sw : SW)
    (h1 : sw.state.isRunning = true) (h2 : sw.state.startTime ≤ 0) :
    (stopTimer f now sw).1.state.elapsedTime = sw.state.elapsedTime
    ∧ (stopTimer f now sw).1.state.isRunning = false
    ∧ (stopTimer f now sw).1.timerInterval = false := by
  simp [stopTimer, h1, if_neg (not_lt.2 h2)]

/-- Witness for stop_degenerate at a concrete running state with the zero
default startTime. -/
theorem stop_degenerate_witness :
    (swDegenerate.state.isRunning = true ∧ swDegenerate.state.startTime ≤ 0)
    ∧ ((stopTimer false 11 swDegenerate).1.state.elapsedTime = swDegenerate.state.elapsedTime
        ∧ (stopTimer false 11 swDegenerate).1.state.isRunning = false
        ∧ (stopTimer false 11 swDegenerate).1.timerInterval = false) :=
  ⟨⟨rfl, by decide⟩, stop_degenerate false 11 swDegenerate rfl (by decide)⟩

/-- C10: stop on a running store only clears isRunning (and, when the
startTime guard passes, recomputes elapsedTime): displayTime, mode,
timerDuration, startTime and sessionStartTime are untouched, elapsedTime
is untouched whenever startTime is at most zero, and the single stopped
broadcast carries exactly the resulting state, whose displayTime is the
possibly stale value of the last tick or merge. -/
theorem stop_frame (f : Bool) (now : Int) (sw : SW) (h : sw.state.isRunning = true) :
    (stopTimer f now sw).1.state.displayTime = sw.state.displayTime
    ∧ (stopTimer f now sw).1.state.mode = sw.state.mode
    ∧ (stopTimer f now sw).1.state.timerDuration = sw.state.timerDuration
    ∧ (stopTimer f now sw).1.state.startTime = sw.state.startTime
    ∧ (stopTimer f now sw).1.state.sessionStartTime = sw.state.sessionStartTime
    ∧ (stopTimer f now sw).1.state.isRunning = false
    ∧ (sw.state.startTime ≤ 0 → (stopTimer f now sw).1.state.elapsedTime = sw.state.elapsedTime)
    ∧ (stopTimer f now sw).2 = [Msg.stopped (stopTimer f now sw).1.state f] := by
  rcases lt_or_le 0 sw.state.startTime with hpos | hneg
  · simp [stopTimer, h, if_pos hpos]
    omega
  · simp [stopTimer, h, if_neg (not_lt.2 hneg)]

/-- Witness for stop_frame at a concrete mid-run countdown state. -/
theorem stop_frame_witness :
    swMidRun.state.isRunning = true
    ∧ ((stopTimer true 803 swMidRun).1.state.displayTime = swMidRun.state.displayTime
        ∧ (stopTimer true 803 swMidRun).1.state.mode = swMidRun.state.mode
        ∧ (stopTimer true 803 swMidRun).1.state.timerDuration = swMidRun.state.timerDuration
        ∧ (stopTimer true 803 swMidRun).1.state.startTime = swMidRun.state.startTime
        ∧ (stopTimer true 803 swMidRun).1.state.sessionStartTime = swMidRun.state.sessionStartTime
        ∧ (stopTimer true 803 swMidRun).1.state.isRunning = false
        ∧ (swMidRun.state.startTime ≤ 0 → (stopTimer true 803 swMidRun).1.state.elapsedTime = swMidRun.state.elapsedTime)
        ∧ (stopTimer true 803 swMidRun).2 = [Msg.stopped (stopTimer true 803 swMidRun).1.state true]) :=
  ⟨rfl, stop_frame true 803 swMidRun rfl⟩

/-- C2, counterexample: reset while idle is not silently ignored.  From the
idle store carrying a leftover elapsedTime of 9, resetTimer changes the
state and broadcasts a reset message, refuting "state unchanged and no
message broadcast". -/
theorem reset_idle_counterexample :
    ¬ ((resetTimer 20 { timerInterval := false, state := { initTimerState with elapsedTime := 9 } }).1
        = { timerInterval := false, state := { initTimerState with elapsedTime := 9 } }
      ∧ (resetTimer 20 { timerInterval := false, state := { initTimerState with elapsedTime := 9 } }).2 = []) := by
  decide

/-- C2, amended: reset while idle skips only the embedded stop (so no
stopped broadcast and no elapsed-time recomputation, and the interval flag
is untouched); the state is still replaced wholesale by the default idle
value and a single reset message is broadcast. -/
theorem reset_idle_behavior (now : Int) (sw : SW) (h : sw.state.isRunning = false) :
    (resetTimer now sw).1 = { timerInterval := sw.timerInterval, state := initTimerState }
    ∧ (resetTimer now sw).2 = [Msg.reset initTimerState] := by
  simp [resetTimer, stopTimer, h]

/-- Witness for reset_idle_behavior at the initial store. -/
theorem reset_idle_behavior_witness :
    (initSW.state.isRunning = false)
    ∧ ((resetTimer 3 initSW).1 = { timerInterval := initSW.timerInterval, state := initTimerState }
        ∧ (resetTimer 3 initSW).2 = [Msg.reset initTimerState]) :=
  ⟨rfl, reset_idle_behavior 3 initSW rfl⟩

/-- C9: after a start whose payload carries sessionStartTime T (from an
idle store, so the start takes effect and stores T) followed by a reset,
the getState reply carries the default idle-stopwatch state, whose
sessionStartTime is null. -/
theorem reset_clears_session (sw : SW) (p : StartPayload) (T t1 t2 t3 : Int)
    (hp : p.sessionStartTime = some (some T)) (hidle : sw.state.isRunning = false) :
    (handleMessage (Command.start p) t1 sw).1.state.sessionStartTime = some T
    ∧ (handleMessage Command.getState t3
        (handleMessage Command.reset t2 (handleMessage (Command.start p) t1 sw).1).1).2
      = [Msg.stateReply initTimerState]
    ∧ initTimerState.sessionStartTime = none := by
  refine ⟨?_, ?_, rfl⟩
  · simp [handleMessage, startTimer, hidle, mergePayload, hp]
  · simp [handleMessage, resetTimer]

/-- Witness for reset_clears_session with T = 42 from the initial store. -/
theorem reset_clears_session_witness :
    (({ sessionStartTime := some (some 42) } : StartPayload).sessionStartTime = some (some 42)
      ∧ initSW.state.isRunning = false)
    ∧ ((handleMessage (Command.start { sessionStartTime := some (some 42) }) 1 initSW).1.state.sessionStartTime = some 42
        ∧ (handleMessage Command.getState 9
            (handleMessage Command.reset 5 (handleMessage (Command.start { sessionStartTime := some (some 42) }) 1 initSW).1).1).2
          = [Msg.stateReply initTimerState]
        ∧ initTimerState.sessionStartTime = none) :=
  ⟨⟨rfl, rfl⟩, reset_clears_session initSW { sessionStartTime := some (some 42) } 42 1 5 9 rfl rfl⟩

/-- Every tick broadcast starts with a tick message carrying the
recomputed state. -/
theorem tick_msgs_head (now : Int) (sw : SW) :
    (tick now sw).2.head? = some (Msg.tick (tickState now sw.state)) := by
  simp only [tick]
  split <;> rfl

/-- The recomputed tick state reads elapsedTime off the clock anchor. -/
theorem tickState_elapsed (now : Int) (s : TimerState) :
    (tickState now s).elapsedTime = now - s.startTime := rfl

/-- After a tick the stored elapsedTime equals now minus the anchor, also
through the countdown auto-stop (which recomputes it to the same value or
keeps it, by the startTime guard). -/
theorem tick_fst_elapsed (now : Int) (sw : SW) :
    (tick now sw).1.state.elapsedTime = now - sw.state.startTime := by
  simp only [tick, tickState, stopTimer]
  split_ifs <;> rfl

/-- Start from an idle store anchors startTime at now minus the merged
elapsedTime. -/
theorem start_startTime (p : StartPayload) (t : Int) (sw : SW) (h : sw.state.isRunning = false) :
    (startTimer p t sw).1.state.startTime = t - p.elapsedTime.getD sw.state.elapsedTime := by
  simp [startTimer, h, mergePayload]

/-- C6: elapsed-time continuity.  Starting an idle store with a payload
carrying elapsedTime E at clock t0, a tick d milliseconds later broadcasts
and stores elapsedTime E + d, not d. -/
theorem start_tick_continuity (sw : SW) (p : StartPayload) (t0 d E : Int)
    (h1 : sw.state.isRunning = false) (h2 : p.elapsedTime = some E) :
    (∃ s1, (tick (t0 + d) (startTimer p t0 sw).1).2.head? = some (Msg.tick s1)
        ∧ s1.elapsedTime = E + d)
    ∧ (tick (t0 + d) (startTimer p t0 sw).1).1.state.elapsedTime = E + d := by
  have hs := start_startTime p t0 sw h1
  rw [h2, Option.getD_some] at hs
  refine ⟨⟨_, tick_msgs_head _ _, ?_⟩, ?_⟩
  · rw [tickState_elapsed, hs]; ring
  · rw [tick_fst_elapsed, hs]; ring

/-- Witness for start_tick_continuity: carried-over elapsedTime 5000 and a
tick one period later yield 6000. -/
theorem start_tick_continuity_witness :
    (initSW.state.isRunning = false
      ∧ ({ elapsedTime := some 5000 } : StartPayload).elapsedTime = some 5000)
    ∧ ((∃ s1, (tick (1 + 1000) (startTimer { elapsedTime := some 5000 } 1 initSW).1).2.head? = some (Msg.tick s1)
          ∧ s1.elapsedTime = 5000 + 1000)
        ∧ (tick (1 + 1000) (startTimer { elapsedTime := some 5000 } 1 initSW).1).1.state.elapsedTime = 5000 + 1000) :=
  ⟨⟨rfl, rfl⟩, start_tick_continuity initSW { elapsedTime := some 5000 } 1 1000 5000 rfl rfl⟩

/-- C1: countdown termination.  For every clock reading t0, starting with
mode timer (countdown), timerDuration 2000 and elapsedTime 0 and ticking
twice leaves displayTime 0 and isRunning false, disarms the interval (so
no further tick can fire), and emits exactly one stopped broadcast, which
carries isFinished true. -/
theorem countdown_termination (t0 : Int) :
    (countdownRun t0).1.state.displayTime = 0
    ∧ (countdownRun t0).1.state.isRunning = false
    ∧ (countdownRun t0).1.timerInterval = false
    ∧ countStopped true (countdownRun t0).2 = 1
    ∧ countStopped false (countdownRun t0).2 = 0 := by
  simp [countdownRun, startTimer, tick, tickState, stopTimer, mergePayload,
    initSW, initTimerState, countStopped]

/-- stopTimer keeps isRunning and the interval flag in sync: given they
agreed before, both are false after. -/
theorem stop_sync (f : Bool) (now : Int) (sw : SW)
    (h : sw.state.isRunning = sw.timerInterval) :
    (stopTimer f now sw).1.timerInterval = false
    ∧ (stopTimer f now sw).1.state.isRunning = false := by
  simp only [stopTimer]
  split
  · simp_all
  · refine ⟨rfl, ?_⟩
    split <;> rfl

/-- startTimer keeps isRunning and the interval flag in sync. -/
theorem start_sync (p : StartPayload) (now : Int) (sw : SW)
    (h : sw.state.isRunning = sw.timerInterval) :
    (startTimer p now sw).1.state.isRunning = (startTimer p now sw).1.timerInterval := by
  unfold startTimer
  split
  · exact h
  · rfl

/-- tick keeps isRunning and the interval flag in sync, also through the
countdown auto-stop. -/
theorem tick_sync (now : Int) (sw : SW)
    (h : sw.state.isRunning = sw.timerInterval) :
    (tick now sw).1.state.isRunning = (tick now sw).1.timerInterval := by
  simp only [tick]
  split
  · exact ((stop_sync true now { timerInterval := sw.timerInterval, state := tickState now sw.state } h).2).trans
      ((stop_sync true now { timerInterval := sw.timerInterval, state := tickState now sw.state } h).1).symm
  · exact h

/-- resetTimer keeps isRunning and the interval flag in sync. -/
theorem reset_sync (now : Int) (sw : SW)
    (h : sw.state.isRunning = sw.timerInterval) :
    (resetTimer now sw).1.state.isRunning = (resetTimer now sw).1.timerInterval := by
  simp only [resetTimer]
  exact ((stop_sync false now sw h).1).symm

/-- C3: in every store reachable from the initial one by start, stop,
reset and tick steps, isRunning is true exactly when a tick-interval
handle is armed. -/
theorem running_iff_interval (sw : SW) (h : Reachable sw) :
    sw.state.isRunning = true ↔ sw.timerInterval = true := by
  have key : sw.state.isRunning = sw.timerInterval := by
    induction h with
    | init => rfl
    | doStart p now hr ih => exact start_sync p now _ ih
    | doStop f now hr ih => exact ((stop_sync f now _ ih).2).trans ((stop_sync f now _ ih).1).symm
    | doReset now hr ih => exact reset_sync now _ ih
    | doTick now hr ih => exact tick_sync now _ ih
  rw [key]

/-- Witness for running_iff_interval at the store reached by one start. -/
theorem running_iff_interval_witness :
    Reachable (startTimer { } 5 initSW).1
    ∧ ((startTimer { } 5 initSW).1.state.isRunning = true
        ↔ (startTimer { } 5 initSW).1.timerInterval = true) :=
  ⟨Reachable.doStart { } 5 Reachable.init,
   running_iff_interval _ (Reachable.doStart { } 5 Reachable.init)⟩

/-- C5, counterexample: the object spread in startTimer merges a
caller-supplied displayTime verbatim, so a start payload carrying
displayTime -1 leaves the state with a negative displayTime. -/
theorem display_negative_after_start :
    (startTimer { displayTime := some (-1) } 5 initSW).1.state.displayTime < 0 := by
  decide

/-- stopTimer never changes displayTime. -/
theorem stop_display (f : Bool) (now : Int) (sw : SW) :
    (stopTimer f now sw).1.state.displayTime = sw.state.displayTime := by
  simp only [stopTimer]
  split
  · rfl
  · split <;> rfl

/-- The tick recomputation floors displayTime at zero. -/
theorem tickState_display_nonneg (now : Int) (s : TimerState) :
    0 ≤ (tickState now s).displayTime := by
  simp only [tickState]
  split <;> omega

/-- After a tick, displayTime is non-negative, also through the countdown
auto-stop. -/
theorem tick_display_nonneg (now : Int) (sw : SW) :
    0 ≤ (tick now sw).1.state.displayTime := by
  simp only [tick]
  split
  · rw [stop_display]
    exact tickState_display_nonneg now sw.state
  · exact tickState_display_nonneg now sw.state

/-- startTimer keeps displayTime when the payload does not override it. -/
theorem start_display (p : StartPayload) (now : Int) (sw : SW)
    (hp : p.displayTime = none) :
    (startTimer p now sw).1.state.displayTime = sw.state.displayTime := by
  simp only [startTimer]
  split
  · rfl
  · simp [mergePayload, hp]

/-- resetTimer restores the zero displayTime. -/
theorem reset_display (now : Int) (sw : SW) :
    (resetTimer now sw).1.state.displayTime = 0 := rfl

/-- C5, amended: displayTime is non-negative after every operation
provided start payloads are confined to the documented shape (mode,
timerDuration, elapsedTime, sessionStartTime): in every store so
reachable, displayTime is at least zero. -/
theorem display_nonneg (sw : SW) (h : ReachableDoc sw) :
    0 ≤ sw.state.displayTime := by
  induction h with
  | init => exact le_refl 0
  | doStart p now hp hr ih => rw [start_display p now _ hp.2.2]; exact ih
  | doStop f now hr ih => rw [stop_display]; exact ih
  | doReset now hr ih => rw [reset_display]
  | doTick now hr ih => exact tick_display_nonneg now _

/-- Witness for display_nonneg at the store reached by a documented
countdown start. -/
theorem display_nonneg_witness :
    ReachableDoc (startTimer { mode := some Mode.timer, timerDuration := some 2000 } 5 initSW).1
    ∧ 0 ≤ (startTimer { mode := some Mode.timer, timerDuration := some 2000 } 5 initSW).1.state.displayTime :=
  ⟨ReachableDoc.doStart _ 5 (by decide) ReachableDoc.init,
   display_nonneg _ (ReachableDoc.doStart _ 5 (by decide) ReachableDoc.init)⟩

end ChronoMind
